import Mathlib

/-!
# WireRtcLib: DS1307 / DS3231 driver

A shallow embedding of `src/WireRtcLib/WireRtcLib.cpp` together with the buffered
two-wire master interface it drives (`src/library-gcc/twi.c`, the C port of the
Arduino `Wire` object).

* `uint8_t` values are natural numbers below 256; every conversion to `uint8_t`
  that can lose bits is an explicit `% 256`.
* `int` fields of `WireRtcLib::tm` are integers.
* The global `Wire` object is an explicit state `TwoWire σ` threaded through every
  driver method; `σ` is the state of the attached chip, whose reaction to a bus
  write or read is given by a `ChipModel σ`.
-/

/-! ## Bus transactions and the chip -/

/-- A completed master transaction on the two-wire bus. -/
inductive BusOp where
  | write (address : Nat) (data : List Nat)
  | read (address : Nat) (quantity : Nat)
  deriving DecidableEq, Repr

/-- The reaction of the attached device to the two blocking low-level transfers
`twi_writeTo` and `twi_readFrom` (declared in `twi-lowlevel.h`). -/
structure ChipModel (σ : Type) where
  writeTo : σ → Nat → List Nat → σ
  readFrom : σ → Nat → Nat → List Nat × σ

/-- Embedding of `BUFFER_LENGTH` of `twi.h`. -/
def BUFFER_LENGTH : Nat := 32

/-- The state of the buffered master interface of `twi.c`: `rxBuffer` holds the
bytes `rxBuffer[rxBufferIndex .. rxBufferLength)` not yet handed out, `txBuffer`
the bytes `txBuffer[0 .. txBufferLength)`; `chip` is the attached device and
`log` the transactions completed so far, oldest first. -/
structure TwoWire (σ : Type) where
  rxBuffer : List Nat
  txAddress : Nat
  txBuffer : List Nat
  transmitting : Bool
  chip : σ
  log : List BusOp

namespace Wire

variable {σ : Type}

/-- Embedding of `twi_begin_transmission` / `Wire.beginTransmission`. -/
def beginTransmission (w : TwoWire σ) (address : Nat) : TwoWire σ :=
  { w with transmitting := true, txAddress := address % 256, txBuffer := [] }

/-- Embedding of `twi_send_byte` / `Wire.send`: the argument is converted to `uint8_t`; a byte
is dropped when the buffer is full, and outside a master transmission nothing
reaches the master buffers. -/
def send (w : TwoWire σ) (data : Nat) : TwoWire σ :=
  if w.transmitting then
    if w.txBuffer.length ≥ BUFFER_LENGTH then w
    else { w with txBuffer := w.txBuffer ++ [data % 256] }
  else w

/-- Embedding of `twi_end_transmission` / `Wire.endTransmission`: transmit the buffer, then
reset it. -/
def endTransmission (M : ChipModel σ) (w : TwoWire σ) : TwoWire σ :=
  { w with
    chip := M.writeTo w.chip w.txAddress w.txBuffer
    log := w.log ++ [BusOp.write w.txAddress w.txBuffer]
    txBuffer := []
    transmitting := false }

/-- Embedding of `twi_request_from` / `Wire.requestFrom`: at most `quantity` bytes arrive in the
`uint8_t` receive buffer. -/
def requestFrom (M : ChipModel σ) (w : TwoWire σ) (address quantity : Nat) : TwoWire σ :=
  let quantity := if quantity % 256 > BUFFER_LENGTH then BUFFER_LENGTH else quantity % 256
  let r := M.readFrom w.chip (address % 256) quantity
  { w with
    chip := r.2
    log := w.log ++ [BusOp.read (address % 256) quantity]
    rxBuffer := (r.1.take quantity).map (fun b => b % 256) }

/-- Embedding of `twi_available` / `Wire.available`. -/
def available (w : TwoWire σ) : Nat := w.rxBuffer.length

/-- Embedding of `twi_receive` / `Wire.receive`: the next unread byte, or 0 when there is none. -/
def receive (w : TwoWire σ) : Nat × TwoWire σ :=
  match w.rxBuffer with
  | [] => (0, w)
  | value :: rest => (value, { w with rxBuffer := rest })

/-- The loop `for (i = 0; i < n; i++) rtc[i] = Wire.receive();`. -/
def receiveLoop : Nat → TwoWire σ → List Nat × TwoWire σ
  | 0, w => ([], w)
  | n + 1, w =>
    let r := receive w
    let rs := receiveLoop n r.2
    (r.1 :: rs.1, rs.2)

end Wire

/-! ## A register-file chip -/

/-- Embedding of `RTC_ADDR`, the bus address of the clock chip. -/
def RTC_ADDR : Nat := 0x68

/-- A chip seen as a file of byte registers with an auto-incrementing register
pointer. A register holds the last byte written to it, unless `ro` marks its
address as ignoring writes; nothing changes between transactions (the clock does
not tick). -/
structure RegFile where
  regs : Nat → Nat
  ptr : Nat
  ro : Nat → Bool

namespace RegFile

/-- Every register holds a byte. -/
def WF (c : RegFile) : Prop := ∀ a, c.regs a < 256

/-- One data byte of a write transaction. -/
def store (c : RegFile) (b : Nat) : RegFile :=
  { c with
    regs := fun a => if a = c.ptr ∧ c.ro a = false then b else c.regs a
    ptr := (c.ptr + 1) % 256 }

/-- A write transaction: the first byte sets the register pointer, the others are
stored at consecutive registers. Other bus addresses are not ours. -/
def writeTo (c : RegFile) (address : Nat) : List Nat → RegFile
  | [] => c
  | p :: data => if address = RTC_ADDR then data.foldl store { c with ptr := p } else c

/-- A read of `n` bytes from the register pointer onwards. -/
def fetch : Nat → RegFile → List Nat × RegFile
  | 0, c => ([], c)
  | n + 1, c =>
    let r := fetch n { c with ptr := (c.ptr + 1) % 256 }
    (c.regs c.ptr :: r.1, r.2)

/-- A read transaction. -/
def readFrom (c : RegFile) (address n : Nat) : List Nat × RegFile :=
  if address = RTC_ADDR then fetch n c else ([], c)

/-- The register-file chip as a bus device. -/
def model : ChipModel RegFile := ⟨writeTo, readFrom⟩

/-- The byte read from register `a` after a write of `b` to it. -/
def echo (c : RegFile) (a b : Nat) : Nat :=
  if c.ro a = false then b else c.regs a % 256

/-- The sentinel pair 0xEE, 0xDD written to registers 0x11 and 0x12 reads back. -/
def Echo (c : RegFile) : Prop := c.echo 0x11 0xee = 0xee ∧ c.echo 0x12 0xdd = 0xdd

instance (c : RegFile) : Decidable c.Echo := by unfold Echo; infer_instance

/-- No register ignores writes: plain storage. -/
def plainRo : Nat → Bool := fun _ => false

/-- The two temperature registers 0x11 and 0x12 ignore writes. -/
def tempRo : Nat → Bool := fun a => a == 0x11 || a == 0x12

end RegFile

/-! ## The driver -/

/-- Embedding of `WireRtcLib::tm`: the 24-hour fields, and the 12-hour clock data that is set
when reading the time and ignored when setting it. -/
structure WireRtcLib.tm where
  sec : Int
  min : Int
  hour : Int
  mday : Int
  mon : Int
  year : Int
  wday : Int
  am : Bool
  twelveHour : Int
  deriving DecidableEq, Repr

/-- The data members of `class WireRtcLib`. -/
structure WireRtcLib where
  m_is_ds1307 : Bool
  m_is_ds3231 : Bool
  m_tm : WireRtcLib.tm
  deriving DecidableEq, Repr

/-- Embedding of `enum RTC_SQW_FREQ { FREQ_1 = 0, FREQ_1024, FREQ_4096, FREQ_8192 }`. -/
inductive WireRtcLib.RTC_SQW_FREQ where
  | FREQ_1
  | FREQ_1024
  | FREQ_4096
  | FREQ_8192
  deriving DecidableEq, Repr

namespace WireRtcLib

open Wire

variable {σ : Type}

/-- The numeric value of an enumerator. -/
def RTC_SQW_FREQ.val : RTC_SQW_FREQ → Nat
  | .FREQ_1 => 0
  | .FREQ_1024 => 1
  | .FREQ_4096 => 2
  | .FREQ_8192 => 3

/-- Embedding of `CH_BIT`, the clock halt bit. -/
def CH_BIT : Nat := 7

/-- Embedding of `_BV(bit)` of `<avr/io.h>`. -/
def _BV (bit : Nat) : Nat := 1 <<< bit

/-- The low byte of `~m`, as it acts in `x &= ~m` on a `uint8_t` x. -/
def not8 (m : Nat) : Nat := 0xFF ^^^ (m % 256)

/-- Conversion of an `int` to `uint8_t`. -/
def toU8 (x : Int) : Nat := (x % 256).toNat

/-- Embedding of `WireRtcLib::dec2bcd`. -/
def dec2bcd (d : Nat) : Nat := ((d / 10 * 16) + (d % 10)) % 256

/-- Embedding of `WireRtcLib::bcd2dec`. -/
def bcd2dec (b : Nat) : Nat := ((b / 16 * 10) + (b % 16)) % 256

/-- Embedding of `WireRtcLib::read_byte`. -/
def read_byte (M : ChipModel σ) (w : TwoWire σ) (offset : Nat) : Nat × TwoWire σ :=
  let w := beginTransmission w RTC_ADDR
  let w := send w offset
  let w := endTransmission M w
  let w := requestFrom M w RTC_ADDR 1
  receive w

/-- Embedding of `WireRtcLib::write_byte`. -/
def write_byte (M : ChipModel σ) (w : TwoWire σ) (b offset : Nat) : TwoWire σ :=
  let w := beginTransmission w RTC_ADDR
  let w := send w offset
  let w := send w b
  endTransmission M w

/-- The constructor `WireRtcLib::WireRtcLib()`; `m_tm` is not initialised by it. -/
def new (m_tm : tm) : WireRtcLib :=
  { m_is_ds1307 := false, m_is_ds3231 := false, m_tm := m_tm }

/-- Embedding of `WireRtcLib::begin`. -/
def begin (M : ChipModel σ) (self : WireRtcLib) (w : TwoWire σ) : WireRtcLib × TwoWire σ :=
  let (temp1, w) := read_byte M w 0x11
  let (temp2, w) := read_byte M w 0x12
  let w := write_byte M w 0xee 0x11
  let w := write_byte M w 0xdd 0x12
  let (r1, w) := read_byte M w 0x11
  if r1 = 0xee then
    let (r2, w) := read_byte M w 0x12
    if r2 = 0xdd then
      let self := { self with m_is_ds1307 := true }
      let w := write_byte M w temp1 0x11
      let w := write_byte M w temp2 0x12
      (self, w)
    else
      ({ self with m_is_ds3231 := true }, w)
  else
    ({ self with m_is_ds3231 := true }, w)

/-- Embedding of `WireRtcLib::isDS1307`. -/
def isDS1307 (self : WireRtcLib) : Bool := self.m_is_ds1307

/-- Embedding of `WireRtcLib::isDS3231`. -/
def isDS3231 (self : WireRtcLib) : Bool := self.m_is_ds3231

/-- Embedding of `WireRtcLib::setDS1307`. -/
def setDS1307 (self : WireRtcLib) : WireRtcLib :=
  { self with m_is_ds1307 := true, m_is_ds3231 := false }

/-- Embedding of `WireRtcLib::setDS3231`. -/
def setDS3231 (self : WireRtcLib) : WireRtcLib :=
  { self with m_is_ds1307 := false, m_is_ds3231 := true }

/-- Embedding of `WireRtcLib::getTime`: the returned pointer is `&m_tm`, so the snapshot is
the `m_tm` of the returned driver state. -/
def getTime (M : ChipModel σ) (self : WireRtcLib) (w : TwoWire σ) : WireRtcLib × TwoWire σ :=
  let w := beginTransmission w RTC_ADDR
  let w := send w 0x0
  let w := endTransmission M w
  let w := requestFrom M w RTC_ADDR 7
  let (rtc, w) := receiveLoop 7 w
  let w := endTransmission M w
  let rtc0 := rtc.getD 0 0 &&& not8 (_BV CH_BIT)
  let m_tm : tm :=
    { self.m_tm with
      sec := bcd2dec rtc0
      min := bcd2dec (rtc.getD 1 0)
      hour := bcd2dec (rtc.getD 2 0)
      mday := bcd2dec (rtc.getD 4 0)
      mon := bcd2dec (rtc.getD 5 0)
      year := bcd2dec (rtc.getD 6 0)
      wday := bcd2dec (rtc.getD 3 0) }
  let m_tm : tm :=
    if m_tm.hour = 0 then { m_tm with twelveHour := 0, am := true }
    else if m_tm.hour < 12 then { m_tm with twelveHour := m_tm.hour, am := true }
    else { m_tm with twelveHour := m_tm.hour - 12, am := false }
  ({ self with m_tm := m_tm }, w)

/-- Embedding of `WireRtcLib::getTime_s`, called with three non-null pointers: the result is
`(*hour, *min, *sec)`. -/
def getTime_s (M : ChipModel σ) (w : TwoWire σ) : (Nat × Nat × Nat) × TwoWire σ :=
  let w := beginTransmission w RTC_ADDR
  let w := send w 0x0
  let w := endTransmission M w
  let w := requestFrom M w RTC_ADDR 7
  let (rtc, w) := receiveLoop 7 w
  let w := endTransmission M w
  let sec := bcd2dec (rtc.getD 0 0)
  let min := bcd2dec (rtc.getD 1 0)
  let hour := bcd2dec (rtc.getD 2 0)
  ((hour, min, sec), w)

/-- Embedding of `WireRtcLib::setTime`. -/
def setTime (M : ChipModel σ) (w : TwoWire σ) (t : tm) : TwoWire σ :=
  let w := beginTransmission w RTC_ADDR
  let w := send w 0x0
  let w := send w (dec2bcd (toU8 t.sec))
  let w := send w (dec2bcd (toU8 t.min))
  let w := send w (dec2bcd (toU8 t.hour))
  let w := send w (dec2bcd (toU8 t.wday))
  let w := send w (dec2bcd (toU8 t.mday))
  let w := send w (dec2bcd (toU8 t.mon))
  let w := send w (dec2bcd (toU8 t.year))
  endTransmission M w

/-- Embedding of `WireRtcLib::setTime_s`. -/
def setTime_s (M : ChipModel σ) (w : TwoWire σ) (hour min sec : Nat) : TwoWire σ :=
  let w := beginTransmission w RTC_ADDR
  let w := send w 0x0
  let w := send w (dec2bcd sec)
  let w := send w (dec2bcd min)
  let w := send w (dec2bcd hour)
  endTransmission M w

/-- Embedding of `WireRtcLib::runClock`. -/
def runClock (M : ChipModel σ) (self : WireRtcLib) (w : TwoWire σ) (run : Bool) : TwoWire σ :=
  if self.m_is_ds3231 then w
  else
    let (b, w) := read_byte M w 0x0
    let b := if run then b &&& not8 (_BV CH_BIT) else b ||| _BV CH_BIT
    write_byte M w b 0x0

/-- Embedding of `WireRtcLib::isClockRunning`. -/
def isClockRunning (M : ChipModel σ) (self : WireRtcLib) (w : TwoWire σ) : Bool × TwoWire σ :=
  if self.m_is_ds3231 then (true, w)
  else
    let (b, w) := read_byte M w 0x0
    if b &&& _BV CH_BIT ≠ 0 then (false, w) else (true, w)

/-- Embedding of `WireRtcLib::getTemp`: the result is `(*i, *f)`; `*i` is an `int8_t`. -/
def getTemp (M : ChipModel σ) (self : WireRtcLib) (w : TwoWire σ) : (Int × Nat) × TwoWire σ :=
  if self.m_is_ds1307 then ((0, 0), w)
  else
    let w := beginTransmission w RTC_ADDR
    let w := send w 0x11
    let w := endTransmission M w
    let w := requestFrom M w RTC_ADDR 2
    if available w ≠ 0 then
      let (msb, w) := receive w
      let (lsb, w) := receive w
      let i : Int := if msb % 256 < 128 then (msb % 256 : Nat) else ((msb % 256 : Nat) : Int) - 256
      let f := ((lsb >>> 6) * 25) % 256
      ((i, f), w)
    else ((0, 0), w)

/-- Embedding of `DS1307_SRAM_ADDR`. -/
def DS1307_SRAM_ADDR : Nat := 0x08

/-- Embedding of `WireRtcLib::getSramByte`. -/
def getSramByte (M : ChipModel σ) (w : TwoWire σ) (offset : Nat) : Nat × TwoWire σ :=
  let w := beginTransmission w RTC_ADDR
  let w := send w (DS1307_SRAM_ADDR + offset)
  let w := endTransmission M w
  let w := requestFrom M w RTC_ADDR 1
  receive w

/-- Embedding of `WireRtcLib::setSramByte`. -/
def setSramByte (M : ChipModel σ) (w : TwoWire σ) (b offset : Nat) : TwoWire σ :=
  let w := beginTransmission w RTC_ADDR
  let w := send w (DS1307_SRAM_ADDR + offset)
  let w := send w b
  endTransmission M w

/-- The loop of `getSram`, with `n` iterations left and loop counter `i`. -/
def getSramLoop (M : ChipModel σ) : Nat → Nat → TwoWire σ → List Nat × TwoWire σ
  | 0, _, w => ([], w)
  | n + 1, i, w =>
    let r := getSramByte M w (i % 256)
    let rs := getSramLoop M n (i + 1) r.2
    (r.1 :: rs.1, rs.2)

/-- Embedding of `WireRtcLib::getSram`: the result is the 56 bytes stored to `data[0..55]`. -/
def getSram (M : ChipModel σ) (w : TwoWire σ) : List Nat × TwoWire σ :=
  getSramLoop M 56 0 w

/-- The loop of `setSram`, with `n` iterations left and loop counter `i`. -/
def setSramLoop (M : ChipModel σ) (data : List Nat) : Nat → Nat → TwoWire σ → TwoWire σ
  | 0, _, w => w
  | n + 1, i, w => setSramLoop M data n (i + 1) (setSramByte M w (data.getD i 0) (i % 256))

/-- Embedding of `WireRtcLib::setSram`; `data` holds the 56 bytes `data[0..55]`. -/
def setSram (M : ChipModel σ) (w : TwoWire σ) (data : List Nat) : TwoWire σ :=
  setSramLoop M data 56 0 w

/-- Embedding of `WireRtcLib::SQWEnable`. -/
def SQWEnable (M : ChipModel σ) (self : WireRtcLib) (w : TwoWire σ) (enable : Bool) :
    TwoWire σ :=
  if self.m_is_ds1307 then
    let w := beginTransmission w RTC_ADDR
    let w := send w 0x07
    let w := endTransmission M w
    let w := requestFrom M w RTC_ADDR 1
    let (control, w) := receive w
    let control :=
      if enable then control ||| 0b00010000
      else control &&& not8 0b00010000
    let w := beginTransmission w RTC_ADDR
    let w := send w 0x07
    let w := send w control
    endTransmission M w
  else
    let w := beginTransmission w RTC_ADDR
    let w := send w 0x0E
    let w := endTransmission M w
    let w := requestFrom M w RTC_ADDR 1
    let (control, w) := receive w
    let control :=
      if enable then (control ||| 0b01000000) &&& not8 0b00000100
      else control &&& not8 0b01000000
    let w := beginTransmission w RTC_ADDR
    let w := send w 0x0E
    let w := send w control
    endTransmission M w

/-- Embedding of `WireRtcLib::SQWSetFreq`. -/
def SQWSetFreq (M : ChipModel σ) (self : WireRtcLib) (w : TwoWire σ) (freq : RTC_SQW_FREQ) :
    TwoWire σ :=
  if self.m_is_ds1307 then
    let w := beginTransmission w RTC_ADDR
    let w := send w 0x07
    let w := endTransmission M w
    let w := requestFrom M w RTC_ADDR 1
    let (control, w) := receive w
    let control := control &&& not8 0b00000011
    let control := (control ||| freq.val) % 256
    let w := beginTransmission w RTC_ADDR
    let w := send w 0x07
    let w := send w control
    endTransmission M w
  else
    let w := beginTransmission w RTC_ADDR
    let w := send w 0x0E
    let w := endTransmission M w
    let w := requestFrom M w RTC_ADDR 1
    let (control, w) := receive w
    let control := control &&& not8 0b00011000
    let control := (control ||| (freq.val <<< 4)) % 256
    let w := beginTransmission w RTC_ADDR
    let w := send w 0x0E
    let w := send w control
    endTransmission M w

/-- Embedding of `WireRtcLib::Osc32kHzEnable`. -/
def Osc32kHzEnable (M : ChipModel σ) (self : WireRtcLib) (w : TwoWire σ) (enable : Bool) :
    TwoWire σ :=
  if !self.m_is_ds3231 then w
  else
    let w := beginTransmission w RTC_ADDR
    let w := send w 0x0F
    let w := endTransmission M w
    let w := requestFrom M w RTC_ADDR 1
    let (status, w) := receive w
    let status :=
      if enable then status ||| 0b00001000
      else status &&& not8 0b00001000
    let w := beginTransmission w RTC_ADDR
    let w := send w 0x0F
    let w := send w status
    endTransmission M w

/-- Embedding of `WireRtcLib::resetAlarm`. -/
def resetAlarm (M : ChipModel σ) (self : WireRtcLib) (w : TwoWire σ) : TwoWire σ :=
  if self.m_is_ds1307 then
    let w := setSramByte M w 0 0
    let w := setSramByte M w 0 1
    setSramByte M w 0 2
  else w

/-- Embedding of `WireRtcLib::setAlarm`. -/
def setAlarm (M : ChipModel σ) (self : WireRtcLib) (w : TwoWire σ) (hour min sec : Nat) :
    TwoWire σ :=
  if self.m_is_ds1307 then
    let w := setSramByte M w hour 0
    let w := setSramByte M w min 1
    setSramByte M w sec 2
  else w

/-- Embedding of `WireRtcLib::getAlarm`, called with three non-null pointers whose targets hold
`(hour, min, sec)` before the call: the result is their contents after it. -/
def getAlarm (M : ChipModel σ) (self : WireRtcLib) (w : TwoWire σ) (hour min sec : Nat) :
    (Nat × Nat × Nat) × TwoWire σ :=
  if self.m_is_ds1307 then
    let (hour, w) := getSramByte M w 0
    let (min, w) := getSramByte M w 1
    let (sec, w) := getSramByte M w 2
    ((hour, min, sec), w)
  else ((hour, min, sec), w)

/-- Embedding of `WireRtcLib::checkAlarm`. -/
def checkAlarm (M : ChipModel σ) (self : WireRtcLib) (w : TwoWire σ) : Bool × TwoWire σ :=
  if self.m_is_ds1307 then
    let (hour, w) := getSramByte M w 0
    let (min, w) := getSramByte M w 1
    let (sec, w) := getSramByte M w 2
    let (cur, w) := getTime_s M w
    if cur.1 = hour ∧ cur.2.1 = min ∧ cur.2.2 = sec then (true, w) else (false, w)
  else (false, w)

/-! ## Vocabulary of the statements -/

/-- The bytes `setTime` puts on the bus after the register address. -/
def timeBytes (t : tm) : List Nat :=
  [dec2bcd (toU8 t.sec) % 256, dec2bcd (toU8 t.min) % 256, dec2bcd (toU8 t.hour) % 256,
   dec2bcd (toU8 t.wday) % 256, dec2bcd (toU8 t.mday) % 256, dec2bcd (toU8 t.mon) % 256,
   dec2bcd (toU8 t.year) % 256]

/-- The snapshot `getTime` returns: the pointee `m_tm` of the returned pointer. -/
def snapshot (M : ChipModel σ) (self : WireRtcLib) (w : TwoWire σ) : tm :=
  (getTime M self w).1.m_tm

/-- Two calls of `begin` in succession. -/
def beginTwice (M : ChipModel σ) (self : WireRtcLib) (w : TwoWire σ) : WireRtcLib × TwoWire σ :=
  begin M (begin M self w).1 (begin M self w).2

/-- The bytes in the receive buffer after the two-byte read from register 0x11 that
`getTemp` issues. -/
def tempReply (M : ChipModel σ) (w : TwoWire σ) : List Nat :=
  (requestFrom M (endTransmission M (send (beginTransmission w RTC_ADDR) 0x11)) RTC_ADDR 2).rxBuffer

/-- The register address that `setSramByte` and `getSramByte` put on the bus:
`DS1307_SRAM_ADDR + offset` converted to `uint8_t`. -/
def sramAddr (offset : Nat) : Nat := (DS1307_SRAM_ADDR + offset) % 256

/-- The two-bit field in bits 4..3 of a byte. -/
def field43 (v : Nat) : Nat := (v >>> 3) &&& 0b11

/-- The bytes `v` and `c` agree on every bit that is not set in `mask`. -/
def agreeOutside (mask v c : Nat) : Prop := v &&& not8 mask = c &&& not8 mask

instance (mask v c : Nat) : Decidable (agreeOutside mask v c) := by
  unfold agreeOutside; infer_instance

/-- The log entries of one read-modify-write of register `reg` that writes `v`. -/
def rmwLog (reg v : Nat) : List BusOp :=
  [BusOp.write 0x68 [reg], BusOp.read 0x68 1, BusOp.write 0x68 [reg, v]]

/-- The bus and a register-file chip after one read-modify-write of register `reg`
that writes `v`. -/
def rmwState (w : TwoWire RegFile) (reg v : Nat) : TwoWire RegFile :=
  { rxBuffer := [], txAddress := 0x68, txBuffer := [], transmitting := false,
    chip :=
      { regs := fun a => if a = reg ∧ w.chip.ro a = false then v else w.chip.regs a
        ptr := reg + 1
        ro := w.chip.ro },
    log := w.log ++ rmwLog reg v }

end WireRtcLib

/-! ## Concrete states used as witnesses -/

namespace WireRtcLib

/-- A snapshot: 12:00:50 on day 1 of month 1 of year 24, weekday 1. -/
def tmExample : tm :=
  { sec := 50, min := 0, hour := 12, mday := 1, mon := 1, year := 24, wday := 1,
    am := false, twelveHour := 0 }

/-- An idle bus with a register-file chip attached. -/
def idle (regs : Nat → Nat) (ro : Nat → Bool) : TwoWire RegFile :=
  { rxBuffer := [], txAddress := 0, txBuffer := [], transmitting := false,
    chip := { regs := regs, ptr := 0, ro := ro }, log := [] }

/-- Registers in which only the hour register 0x02 is non-zero. -/
def hourRegs (b : Nat) : Nat → Nat := fun a => if a = 2 then b else 0

/-- Registers of a running clock showing 12:01:00. -/
def alarmTimeRegs : Nat → Nat := fun a => if a = 1 then 0x01 else if a = 2 then 0x12 else 0

/-- A DS1307 driver state. -/
def ds1307 : WireRtcLib := setDS1307 (new tmExample)

/-- A DS3231 driver state. -/
def ds3231 : WireRtcLib := setDS3231 (new tmExample)

/-- Registers that all hold 0. -/
def zeroRegs : Nat → Nat := fun _ => 0

/-- A plain-storage chip whose clock is halted: register 0 holds 0x80 and every
other register 0xFF. -/
def haltedRegs : Nat → Nat := fun a => if a = 0 then 0x80 else 0xFF

/-- An idle bus with the halted plain-storage chip. -/
def haltedBus : TwoWire RegFile := idle haltedRegs RegFile.plainRo

/-- An idle bus with a plain-storage chip whose registers all hold 0. -/
def zeroBus : TwoWire RegFile := idle zeroRegs RegFile.plainRo

/-- An idle bus with a plain-storage chip showing the hour byte `b`. -/
def hourBus (b : Nat) : TwoWire RegFile := idle (hourRegs b) RegFile.plainRo

/-- An idle bus with a plain-storage chip showing 12:01:00. -/
def alarmBus : TwoWire RegFile := idle alarmTimeRegs RegFile.plainRo

/-- Registers of a halted clock stopped at 12:00:50: register 0x00 holds 0xD0, the
BCD seconds 0x50 with the clock-halt bit set. -/
def halted50Regs : Nat → Nat := fun a => if a = 0 then 0xD0 else if a = 2 then 0x12 else 0

/-- Registers of a sensor chip showing -25.75 degrees: 0xE7 in register 0x11 and
0xC0 in register 0x12. -/
def tempRegs : Nat → Nat := fun a => if a = 0x11 then 0xE7 else if a = 0x12 then 0xC0 else 0

/-- An idle bus with a chip whose temperature registers ignore writes. -/
def sensorBus : TwoWire RegFile := idle tempRegs RegFile.tempRo

/-- A 56-byte pattern: 100, 101, ..., 155. -/
def sramData : List Nat := (List.range 56).map (fun k => 100 + k)

/-- An idle bus with a plain-storage chip halted at 12:00:50. -/
def halted50Bus : TwoWire RegFile := idle halted50Regs RegFile.plainRo

end WireRtcLib

/-! ## Theorems -/

set_option maxRecDepth 100000

namespace WireRtcLib

open Wire

theorem haltedBus_WF : haltedBus.chip.WF := by
  intro a
  unfold haltedBus idle haltedRegs
  dsimp only
  split_ifs <;> decide

/-- C1: for every v with 0 ≤ v ≤ 99, `bcd2dec (dec2bcd v) = v`, both computed on
8-bit unsigned values. -/
theorem bcd_roundtrip (v : Nat) (h : v ≤ 99) : bcd2dec (dec2bcd v) = v := by
  interval_cases v <;> rfl

/-- Witness for C1 at v = 59. -/
theorem bcd_roundtrip_witness : 59 ≤ 99 ∧ bcd2dec (dec2bcd 59) = 59 :=
  ⟨by decide, bcd_roundtrip 59 (by decide)⟩

/-! ### What the driver's transactions do to a register-file chip -/

theorem read_byte_regFile (w : TwoWire RegFile) (offset : Nat) :
    read_byte RegFile.model w offset =
      (w.chip.regs (offset % 256) % 256,
        { rxBuffer := [], txAddress := 0x68, txBuffer := [], transmitting := false,
          chip := { w.chip with ptr := (offset % 256 + 1) % 256 },
          log := w.log ++ [BusOp.write 0x68 [offset % 256]] ++ [BusOp.read 0x68 1] }) :=
  rfl

theorem write_byte_regFile (w : TwoWire RegFile) (b offset : Nat) :
    write_byte RegFile.model w b offset =
      { rxBuffer := w.rxBuffer, txAddress := 0x68, txBuffer := [], transmitting := false,
        chip :=
          { regs := fun a =>
              if a = offset % 256 ∧ w.chip.ro a = false then b % 256 else w.chip.regs a
            ptr := (offset % 256 + 1) % 256
            ro := w.chip.ro },
        log := w.log ++ [BusOp.write 0x68 [offset % 256, b % 256]] } :=
  rfl

theorem setTime_regFile (w : TwoWire RegFile) (t : tm) :
    setTime RegFile.model w t =
      { rxBuffer := w.rxBuffer, txAddress := 0x68, txBuffer := [], transmitting := false,
        chip := (timeBytes t).foldl RegFile.store { w.chip with ptr := 0 },
        log := w.log ++ [BusOp.write 0x68 (0 :: timeBytes t)] } := by
  simp [setTime, beginTransmission, send, endTransmission, BUFFER_LENGTH, RegFile.model,
    RegFile.writeTo, RTC_ADDR, timeBytes]

theorem setTime_regs_plain (w : TwoWire RegFile) (t : tm) (hplain : ∀ a, w.chip.ro a = false) :
    (setTime RegFile.model w t).chip.regs 0 = dec2bcd (toU8 t.sec) % 256 ∧
    (setTime RegFile.model w t).chip.regs 1 = dec2bcd (toU8 t.min) % 256 ∧
    (setTime RegFile.model w t).chip.regs 2 = dec2bcd (toU8 t.hour) % 256 ∧
    (setTime RegFile.model w t).chip.regs 3 = dec2bcd (toU8 t.wday) % 256 ∧
    (setTime RegFile.model w t).chip.regs 4 = dec2bcd (toU8 t.mday) % 256 ∧
    (setTime RegFile.model w t).chip.regs 5 = dec2bcd (toU8 t.mon) % 256 ∧
    (setTime RegFile.model w t).chip.regs 6 = dec2bcd (toU8 t.year) % 256 := by
  simp [setTime_regFile, timeBytes, RegFile.store, hplain]

/-- The 24-hour fields `getTime` decodes from registers 0 to 6 of a register-file
chip. -/
theorem getTime_fields (self : WireRtcLib) (w : TwoWire RegFile) :
    (snapshot RegFile.model self w).sec = bcd2dec (w.chip.regs 0 % 256 &&& 127) ∧
    (snapshot RegFile.model self w).min = bcd2dec (w.chip.regs 1 % 256) ∧
    (snapshot RegFile.model self w).hour = bcd2dec (w.chip.regs 2 % 256) ∧
    (snapshot RegFile.model self w).wday = bcd2dec (w.chip.regs 3 % 256) ∧
    (snapshot RegFile.model self w).mday = bcd2dec (w.chip.regs 4 % 256) ∧
    (snapshot RegFile.model self w).mon = bcd2dec (w.chip.regs 5 % 256) ∧
    (snapshot RegFile.model self w).year = bcd2dec (w.chip.regs 6 % 256) := by
  have hmask : not8 (_BV CH_BIT) = 127 := rfl
  simp [snapshot, getTime, beginTransmission, send, endTransmission, requestFrom, BUFFER_LENGTH,
    RegFile.model, RegFile.writeTo, RegFile.readFrom, RegFile.fetch, receiveLoop, receive,
    RTC_ADDR, hmask]
  split_ifs <;> simp

/-- Encoding then decoding a two-digit field gives the field back. -/
theorem field_roundtrip (x : Int) (h0 : 0 ≤ x) (h1 : x ≤ 99) :
    (bcd2dec (dec2bcd (toU8 x) % 256 % 256) : Int) = x := by
  obtain ⟨n, rfl⟩ := Int.eq_ofNat_of_zero_le h0
  have hn : n ≤ 99 := by omega
  interval_cases n <;> rfl

/-- The seconds byte written for a value up to 59 has bit 7 clear. -/
theorem sec_roundtrip (x : Int) (h0 : 0 ≤ x) (h1 : x ≤ 59) :
    (bcd2dec (dec2bcd (toU8 x) % 256 % 256 &&& 127) : Int) = x := by
  obtain ⟨n, rfl⟩ := Int.eq_ofNat_of_zero_le h0
  have hn : n ≤ 59 := by omega
  interval_cases n <;> rfl

/-- C2: on a plain-storage chip that does not tick, for every prior register state
and every snapshot t with sec, min in [0,59], hour in [0,23], mday in [1,31], mon in
[1,12], year in [0,99] and wday in [1,7], `setTime t` followed by `getTime` returns a
snapshot with the same sec, min, hour, mday, mon, year and wday. -/
theorem setTime_getTime_roundtrip (self : WireRtcLib) (w : TwoWire RegFile) (t : tm)
    (hplain : ∀ a, w.chip.ro a = false)
    (hsec : 0 ≤ t.sec ∧ t.sec ≤ 59) (hmin : 0 ≤ t.min ∧ t.min ≤ 59)
    (hhour : 0 ≤ t.hour ∧ t.hour ≤ 23) (hmday : 1 ≤ t.mday ∧ t.mday ≤ 31)
    (hmon : 1 ≤ t.mon ∧ t.mon ≤ 12) (hyear : 0 ≤ t.year ∧ t.year ≤ 99)
    (hwday : 1 ≤ t.wday ∧ t.wday ≤ 7) :
    (snapshot RegFile.model self (setTime RegFile.model w t)).sec = t.sec ∧
    (snapshot RegFile.model self (setTime RegFile.model w t)).min = t.min ∧
    (snapshot RegFile.model self (setTime RegFile.model w t)).hour = t.hour ∧
    (snapshot RegFile.model self (setTime RegFile.model w t)).mday = t.mday ∧
    (snapshot RegFile.model self (setTime RegFile.model w t)).mon = t.mon ∧
    (snapshot RegFile.model self (setTime RegFile.model w t)).year = t.year ∧
    (snapshot RegFile.model self (setTime RegFile.model w t)).wday = t.wday := by
  obtain ⟨g0, g1, g2, g3, g4, g5, g6⟩ := getTime_fields self (setTime RegFile.model w t)
  obtain ⟨s0, s1, s2, s3, s4, s5, s6⟩ := setTime_regs_plain w t hplain
  rw [s0] at g0; rw [s1] at g1; rw [s2] at g2; rw [s3] at g3
  rw [s4] at g4; rw [s5] at g5; rw [s6] at g6
  refine ⟨?_, ?_, ?_, ?_, ?_, ?_, ?_⟩
  · exact g0.trans (sec_roundtrip _ hsec.1 hsec.2)
  · exact g1.trans (field_roundtrip _ hmin.1 (by omega))
  · exact g2.trans (field_roundtrip _ hhour.1 (by omega))
  · exact g4.trans (field_roundtrip _ (by omega) (by omega))
  · exact g5.trans (field_roundtrip _ (by omega) (by omega))
  · exact g6.trans (field_roundtrip _ hyear.1 hyear.2)
  · exact g3.trans (field_roundtrip _ (by omega) (by omega))

/-- Witness for C2: the snapshot sec=50, min=0, hour=12, mday=1, mon=1, year=24,
wday=1 written over a halted clock. -/
theorem setTime_getTime_roundtrip_witness :
    (snapshot RegFile.model (new tmExample) (setTime RegFile.model haltedBus tmExample)).sec
      = 50 ∧
    (snapshot RegFile.model (new tmExample) (setTime RegFile.model haltedBus tmExample)).min
      = 0 ∧
    (snapshot RegFile.model (new tmExample) (setTime RegFile.model haltedBus tmExample)).hour
      = 12 ∧
    (snapshot RegFile.model (new tmExample) (setTime RegFile.model haltedBus tmExample)).mday
      = 1 ∧
    (snapshot RegFile.model (new tmExample) (setTime RegFile.model haltedBus tmExample)).mon
      = 1 ∧
    (snapshot RegFile.model (new tmExample) (setTime RegFile.model haltedBus tmExample)).year
      = 24 ∧
    (snapshot RegFile.model (new tmExample) (setTime RegFile.model haltedBus tmExample)).wday
      = 1 :=
  setTime_getTime_roundtrip (new tmExample) haltedBus tmExample
    (fun _ => rfl) (by decide) (by decide) (by decide) (by decide) (by decide) (by decide)
    (by decide)

/-- The seconds byte written for a value up to 59 has the clock-halt bit clear. -/
theorem sec_byte_running (x : Int) (h0 : 0 ≤ x) (h1 : x ≤ 59) :
    (dec2bcd (toU8 x) % 256).testBit 7 = false ∧ dec2bcd (toU8 x) % 256 &&& _BV CH_BIT = 0 := by
  obtain ⟨n, rfl⟩ := Int.eq_ofNat_of_zero_le h0
  have hn : n ≤ 59 := by omega
  interval_cases n <;> exact ⟨rfl, rfl⟩

/-- What `isClockRunning` answers on a register-file chip. -/
theorem isClockRunning_regFile (self : WireRtcLib) (w : TwoWire RegFile) :
    (isClockRunning RegFile.model self w).1 =
      (self.m_is_ds3231 || decide (w.chip.regs 0 % 256 &&& _BV CH_BIT = 0)) := by
  unfold isClockRunning
  cases self.m_is_ds3231
  · simp only [read_byte_regFile]
    by_cases h : w.chip.regs 0 % 256 &&& _BV CH_BIT = 0 <;> simp [h]
  · simp

/-- C3: on a plain-storage chip, for every prior register state (the clock-halt
bit, bit 7 of register 0x00, may be set) and every snapshot whose seconds are in
[0,59], after `setTime t` bit 7 of register 0x00 is 0 and `isClockRunning` returns
true. -/
theorem setTime_starts_clock (self : WireRtcLib) (w : TwoWire RegFile) (t : tm)
    (hplain : ∀ a, w.chip.ro a = false) (hsec : 0 ≤ t.sec ∧ t.sec ≤ 59) :
    ((setTime RegFile.model w t).chip.regs 0).testBit 7 = false ∧
    (isClockRunning RegFile.model self (setTime RegFile.model w t)).1 = true := by
  have s0 := (setTime_regs_plain w t hplain).1
  have hb := sec_byte_running t.sec hsec.1 hsec.2
  rw [isClockRunning_regFile, s0]
  exact ⟨hb.1, by simp [hb.2]⟩

/-- Witness for C3: a halted clock (register 0x00 holds 0x80) is started by writing
12:00:50. -/
theorem setTime_starts_clock_witness :
    (haltedBus.chip.regs 0).testBit 7 = true ∧
    (isClockRunning RegFile.model (new tmExample) haltedBus).1 = false ∧
    ((setTime RegFile.model haltedBus tmExample).chip.regs 0).testBit 7 = false ∧
    (isClockRunning RegFile.model (new tmExample)
      (setTime RegFile.model haltedBus tmExample)).1 = true :=
  ⟨by decide, by decide,
    setTime_starts_clock (new tmExample) haltedBus tmExample (fun _ => rfl) (by decide)⟩

/-- C4: whenever `getTime` decodes an hour h in [0,23], the derived fields of the
returned snapshot are twelveHour = 0 and am = true when h = 0, twelveHour = h and
am = true when 1 ≤ h ≤ 11, and twelveHour = h - 12 and am = false when
12 ≤ h ≤ 23; this holds for every chip and every bus state. -/
theorem getTime_twelveHour {σ : Type} (M : ChipModel σ) (self : WireRtcLib) (w : TwoWire σ) :
    0 ≤ (snapshot M self w).hour ∧ (snapshot M self w).hour ≤ 23 →
      ((snapshot M self w).hour = 0 →
        (snapshot M self w).twelveHour = 0 ∧ (snapshot M self w).am = true) ∧
      (1 ≤ (snapshot M self w).hour ∧ (snapshot M self w).hour ≤ 11 →
        (snapshot M self w).twelveHour = (snapshot M self w).hour ∧
        (snapshot M self w).am = true) ∧
      (12 ≤ (snapshot M self w).hour ∧ (snapshot M self w).hour ≤ 23 →
        (snapshot M self w).twelveHour = (snapshot M self w).hour - 12 ∧
        (snapshot M self w).am = false) := by
  simp only [snapshot, getTime]
  generalize (bcd2dec ((receiveLoop 7 _).1.getD 2 0) : Int) = hour
  split_ifs with h0 h12
  all_goals
    dsimp only
    intro hr
    refine ⟨fun h => ⟨?_, ?_⟩, fun h => ⟨?_, ?_⟩, fun h => ⟨?_, ?_⟩⟩
    all_goals first | rfl | omega

/-- Witness for C4: hour bytes 0x00, 0x11, 0x12 and 0x23 give 0 AM, 11 AM, 0 PM and
11 PM. -/
theorem getTime_twelveHour_witness :
    ((snapshot RegFile.model (new tmExample) (hourBus 0x00)).hour = 0 ∧
      (snapshot RegFile.model (new tmExample) (hourBus 0x00)).twelveHour = 0 ∧
      (snapshot RegFile.model (new tmExample) (hourBus 0x00)).am = true) ∧
    ((snapshot RegFile.model (new tmExample) (hourBus 0x11)).hour = 11 ∧
      (snapshot RegFile.model (new tmExample) (hourBus 0x11)).twelveHour =
        (snapshot RegFile.model (new tmExample) (hourBus 0x11)).hour ∧
      (snapshot RegFile.model (new tmExample) (hourBus 0x11)).am = true) ∧
    ((snapshot RegFile.model (new tmExample) (hourBus 0x12)).hour = 12 ∧
      (snapshot RegFile.model (new tmExample) (hourBus 0x12)).twelveHour =
        (snapshot RegFile.model (new tmExample) (hourBus 0x12)).hour - 12 ∧
      (snapshot RegFile.model (new tmExample) (hourBus 0x12)).am = false) ∧
    ((snapshot RegFile.model (new tmExample) (hourBus 0x23)).hour = 23 ∧
      (snapshot RegFile.model (new tmExample) (hourBus 0x23)).twelveHour =
        (snapshot RegFile.model (new tmExample) (hourBus 0x23)).hour - 12 ∧
      (snapshot RegFile.model (new tmExample) (hourBus 0x23)).am = false) :=
  ⟨⟨by decide, (getTime_twelveHour RegFile.model (new tmExample) (hourBus 0x00)
      (by decide)).1 (by decide)⟩,
   ⟨by decide, (getTime_twelveHour RegFile.model (new tmExample) (hourBus 0x11)
      (by decide)).2.1 (by decide)⟩,
   ⟨by decide, (getTime_twelveHour RegFile.model (new tmExample) (hourBus 0x12)
      (by decide)).2.2 (by decide)⟩,
   ⟨by decide, (getTime_twelveHour RegFile.model (new tmExample) (hourBus 0x23)
      (by decide)).2.2 (by decide)⟩⟩

theorem getSramByte_regFile (w : TwoWire RegFile) (offset : Nat) :
    getSramByte RegFile.model w offset =
      (w.chip.regs ((8 + offset) % 256) % 256,
        { rxBuffer := [], txAddress := 0x68, txBuffer := [], transmitting := false,
          chip := { w.chip with ptr := ((8 + offset) % 256 + 1) % 256 },
          log := w.log ++ [BusOp.write 0x68 [(8 + offset) % 256]] ++ [BusOp.read 0x68 1] }) :=
  rfl

theorem setSramByte_regFile (w : TwoWire RegFile) (b offset : Nat) :
    setSramByte RegFile.model w b offset =
      { rxBuffer := w.rxBuffer, txAddress := 0x68, txBuffer := [], transmitting := false,
        chip :=
          { regs := fun a =>
              if a = (8 + offset) % 256 ∧ w.chip.ro a = false then b % 256 else w.chip.regs a
            ptr := ((8 + offset) % 256 + 1) % 256
            ro := w.chip.ro },
        log := w.log ++ [BusOp.write 0x68 [(8 + offset) % 256, b % 256]] } :=
  rfl

/-- The short time `getTime_s` decodes from registers 0 to 2 of a register-file chip:
the seconds byte is decoded with its bit 7. -/
theorem getTime_s_regFile (w : TwoWire RegFile) :
    (getTime_s RegFile.model w).1 =
      (bcd2dec (w.chip.regs 2 % 256), bcd2dec (w.chip.regs 1 % 256),
        bcd2dec (w.chip.regs 0 % 256)) ∧
    (getTime_s RegFile.model w).2.chip.regs = w.chip.regs := by
  simp [getTime_s, beginTransmission, send, endTransmission, requestFrom, BUFFER_LENGTH,
    RegFile.model, RegFile.writeTo, RegFile.readFrom, RegFile.fetch, receiveLoop, receive,
    RTC_ADDR]

/-- The decoded BCD encoding of an hour, minute or second, as `getTime_s` sees it. -/
theorem short_roundtrip (v : Nat) (h : v ≤ 59) : bcd2dec (dec2bcd v % 256) = v := by
  interval_cases v <;> rfl

/-- C5: on the DS1307 variant with a plain-storage chip that does not tick, for every
alarm triple of bytes and every current time (h, m, s) with h in [0,23] and m, s
in [0,59] held BCD-encoded in registers 0x00-0x02 (so the halt bit is clear), after
`setAlarm ahour amin asec` the call `checkAlarm` returns true if and only if
ahour = h, amin = m and asec = s. -/
theorem checkAlarm_iff (self : WireRtcLib) (w : TwoWire RegFile) (ahour amin asec h m s : Nat)
    (hds : self.m_is_ds1307 = true) (hplain : ∀ a, w.chip.ro a = false)
    (hah : ahour < 256) (ham : amin < 256) (has : asec < 256)
    (hh : h ≤ 23) (hm : m ≤ 59) (hs : s ≤ 59)
    (r0 : w.chip.regs 0 = dec2bcd s) (r1 : w.chip.regs 1 = dec2bcd m)
    (r2 : w.chip.regs 2 = dec2bcd h) :
    (checkAlarm RegFile.model self (setAlarm RegFile.model self w ahour amin asec)).1 = true ↔
      (ahour = h ∧ amin = m ∧ asec = s) := by
  have e0 := short_roundtrip s hs
  have e1 := short_roundtrip m hm
  have e2 := short_roundtrip h (by omega)
  simp only [checkAlarm, setAlarm, hds, if_true, setSramByte_regFile, getSramByte_regFile]
  rw [(getTime_s_regFile _).1]
  simp [hplain, r0, r1, r2, e0, e1, e2, Nat.mod_eq_of_lt hah, Nat.mod_eq_of_lt ham,
    Nat.mod_eq_of_lt has]
  split_ifs with hc
  · simp only [true_iff]
    exact ⟨hc.1.symm, hc.2.1.symm, hc.2.2.symm⟩
  · simp only [Bool.false_eq_true, false_iff]
    exact fun hn => hc ⟨hn.1.symm, hn.2.1.symm, hn.2.2.symm⟩

/-- Witness for C5: alarm (12,1,0) with the current time 12:01:00 fires, and a
mismatch in one field does not. -/
theorem checkAlarm_iff_witness :
    ((checkAlarm RegFile.model ds1307 (setAlarm RegFile.model ds1307 alarmBus 12 1 0)).1 = true ↔
      (12 = 12 ∧ 1 = 1 ∧ 0 = 0)) ∧
    ((checkAlarm RegFile.model ds1307 (setAlarm RegFile.model ds1307 alarmBus 12 1 1)).1 = true ↔
      (12 = 12 ∧ 1 = 1 ∧ 1 = 0)) :=
  ⟨checkAlarm_iff ds1307 alarmBus 12 1 0 12 1 0 rfl (fun _ => rfl)
      (by decide) (by decide) (by decide) (by decide) (by decide) (by decide) rfl rfl rfl,
   checkAlarm_iff ds1307 alarmBus 12 1 1 12 1 0 rfl (fun _ => rfl)
      (by decide) (by decide) (by decide) (by decide) (by decide) (by decide) rfl rfl rfl⟩

/-- C6: on a chip whose registers are plain writable storage, `begin` on a freshly
constructed driver classifies the chip as DS1307 (`isDS1307` true, `isDS3231`
false) and leaves every chip register, 0x11 and 0x12 included, equal to its value
before the probe, whatever the registers held. -/
theorem begin_plain_restores (m_tm : tm) (w : TwoWire RegFile)
    (hplain : ∀ a, w.chip.ro a = false) (hwf : w.chip.WF) :
    (begin RegFile.model (new m_tm) w).1.isDS1307 = true ∧
    (begin RegFile.model (new m_tm) w).1.isDS3231 = false ∧
    ∀ a, (begin RegFile.model (new m_tm) w).2.chip.regs a = w.chip.regs a := by
  have h11 := Nat.mod_eq_of_lt (hwf 0x11)
  have h12 := Nat.mod_eq_of_lt (hwf 0x12)
  simp only [begin, read_byte_regFile, write_byte_regFile]
  simp [hplain, isDS1307, isDS3231, new]
  intro a
  split_ifs with ha hb
  · rw [ha]; exact h12
  · rw [hb]; exact h11
  · rfl

/-- Witness for C6: a plain-storage chip with 0xFF in registers 0x11 and 0x12. -/
theorem begin_plain_restores_witness :
    (begin RegFile.model (new tmExample) haltedBus).1.isDS1307 = true ∧
    (begin RegFile.model (new tmExample) haltedBus).1.isDS3231 = false ∧
    ∀ a, (begin RegFile.model (new tmExample) haltedBus).2.chip.regs a = haltedBus.chip.regs a :=
  begin_plain_restores tmExample haltedBus (fun _ => rfl) haltedBus_WF

theorem begin_regFile_flags (self : WireRtcLib) (w : TwoWire RegFile) :
    (begin RegFile.model self w).1 =
      if w.chip.Echo then { self with m_is_ds1307 := true }
      else { self with m_is_ds3231 := true } := by
  simp only [begin, read_byte_regFile, write_byte_regFile, RegFile.Echo, RegFile.echo]
  rcases Bool.eq_false_or_eq_true (w.chip.ro 17) with h17 | h17 <;>
    rcases Bool.eq_false_or_eq_true (w.chip.ro 18) with h18 | h18 <;>
    simp [h17, h18] <;> split_ifs <;> simp_all

/-- The probe keeps the chip's write-ignoring registers as they were. -/
theorem begin_regFile_chip (self : WireRtcLib) (w : TwoWire RegFile) :
    (begin RegFile.model self w).2.chip.ro = w.chip.ro ∧
    ∀ a, w.chip.ro a = true → (begin RegFile.model self w).2.chip.regs a = w.chip.regs a := by
  simp only [begin, read_byte_regFile, write_byte_regFile]
  split_ifs
  all_goals
    refine ⟨rfl, fun a ha => ?_⟩
    simp [ha]

theorem begin_regFile_Echo (self : WireRtcLib) (w : TwoWire RegFile) :
    (begin RegFile.model self w).2.chip.Echo ↔ w.chip.Echo := by
  obtain ⟨hro, hregs⟩ := begin_regFile_chip self w
  have key : ∀ a b, (begin RegFile.model self w).2.chip.echo a b = w.chip.echo a b := by
    intro a b
    unfold RegFile.echo
    rw [hro]
    rcases Bool.eq_false_or_eq_true (w.chip.ro a) with h | h
    · rw [hregs a h]
    · simp [h]
  unfold RegFile.Echo
  rw [key, key]

/-- C7: detection is idempotent. For a freshly constructed driver and a fixed
register-file chip, whatever set of registers ignores writes (none of them: plain
storage at 0x11/0x12; or 0x11 and 0x12: a chip whose temperature registers ignore
writes), calling `begin` twice in succession leaves `isDS1307` and `isDS3231` with
the same values as calling `begin` once. -/
theorem begin_idempotent (m_tm : tm) (w : TwoWire RegFile) :
    (beginTwice RegFile.model (new m_tm) w).1.isDS1307 =
      (begin RegFile.model (new m_tm) w).1.isDS1307 ∧
    (beginTwice RegFile.model (new m_tm) w).1.isDS3231 =
      (begin RegFile.model (new m_tm) w).1.isDS3231 := by
  have h2 := begin_regFile_flags (begin RegFile.model (new m_tm) w).1
    (begin RegFile.model (new m_tm) w).2
  have h1 := begin_regFile_flags (new m_tm) w
  have he := begin_regFile_Echo (new m_tm) w
  unfold beginTwice
  rw [h2]
  by_cases hE : w.chip.Echo
  · rw [if_pos (he.mpr hE), h1, if_pos hE]
    exact ⟨rfl, rfl⟩
  · rw [if_neg (fun h => hE (he.mp h)), h1, if_neg hE]
    exact ⟨rfl, rfl⟩

/-! ### Read-modify-write toggles on a register-file chip -/

theorem SQWEnable_regFile (self : WireRtcLib) (w : TwoWire RegFile) (enable : Bool) :
    SQWEnable RegFile.model self w enable =
      if self.m_is_ds1307 then
        rmwState w 0x07 ((if enable then w.chip.regs 0x07 % 256 ||| 0b00010000
          else w.chip.regs 0x07 % 256 &&& not8 0b00010000) % 256)
      else
        rmwState w 0x0E ((if enable then (w.chip.regs 0x0E % 256 ||| 0b01000000) &&& not8 0b00000100
          else w.chip.regs 0x0E % 256 &&& not8 0b01000000) % 256) := by
  unfold SQWEnable
  split_ifs <;> simp [beginTransmission, send, endTransmission, requestFrom, BUFFER_LENGTH,
    RegFile.model, RegFile.writeTo, RegFile.readFrom, RegFile.fetch, receive, RTC_ADDR, rmwLog,
    rmwState, RegFile.store]

theorem Osc32kHzEnable_regFile (self : WireRtcLib) (w : TwoWire RegFile) (enable : Bool) :
    Osc32kHzEnable RegFile.model self w enable =
      if self.m_is_ds3231 then
        rmwState w 0x0F ((if enable then w.chip.regs 0x0F % 256 ||| 0b00001000
          else w.chip.regs 0x0F % 256 &&& not8 0b00001000) % 256)
      else w := by
  unfold Osc32kHzEnable
  cases self.m_is_ds3231 <;> simp [beginTransmission, send, endTransmission, requestFrom,
    BUFFER_LENGTH, RegFile.model, RegFile.writeTo, RegFile.readFrom, RegFile.fetch, receive,
    RTC_ADDR, rmwLog, rmwState, RegFile.store]

theorem SQWSetFreq_regFile (self : WireRtcLib) (w : TwoWire RegFile) (freq : RTC_SQW_FREQ) :
    SQWSetFreq RegFile.model self w freq =
      if self.m_is_ds1307 then
        rmwState w 0x07 ((w.chip.regs 0x07 % 256 &&& not8 0b00000011 ||| freq.val) % 256)
      else
        rmwState w 0x0E ((w.chip.regs 0x0E % 256 &&& not8 0b00011000 ||| freq.val <<< 4) % 256) := by
  unfold SQWSetFreq
  split_ifs <;> simp [beginTransmission, send, endTransmission, requestFrom, BUFFER_LENGTH,
    RegFile.model, RegFile.writeTo, RegFile.readFrom, RegFile.fetch, receive, RTC_ADDR, rmwLog,
    rmwState, RegFile.store]

/-! ### Square-wave frequency selection -/

/-- On the DS1307 branch `SQWSetFreq` rewrites register 0x07 only, keeps its bits
2..7 and puts the numeric value of `freq` in bits 1..0. -/
theorem SQWSetFreq_ds1307 (self : WireRtcLib) (w : TwoWire RegFile) (freq : RTC_SQW_FREQ)
    (hds : self.m_is_ds1307 = true) (hwf : w.chip.WF) :
    ∃ v, SQWSetFreq RegFile.model self w freq = rmwState w 0x07 v ∧
      agreeOutside 0b00000011 v (w.chip.regs 0x07) ∧ v &&& 0b00000011 = freq.val := by
  have hbits : ∀ c, c < 256 → ∀ f, f < 4 →
      agreeOutside 0b00000011 ((c % 256 &&& not8 0b00000011 ||| f) % 256) c ∧
      (c % 256 &&& not8 0b00000011 ||| f) % 256 &&& 0b00000011 = f := by decide
  have hf : freq.val < 4 := by cases freq <;> decide
  rw [SQWSetFreq_regFile, if_pos hds]
  exact ⟨_, rfl, hbits _ (hwf 0x07) _ hf⟩

/-- What the DS3231 branch of `SQWSetFreq` writes to register 0x0E: bit 3 is
cleared, and bits 4 and 5 receive the two bits of `freq`. -/
theorem SQWSetFreq_ds3231 (self : WireRtcLib) (w : TwoWire RegFile) (freq : RTC_SQW_FREQ)
    (hds : self.m_is_ds1307 = false) (hwf : w.chip.WF) :
    ∃ v, SQWSetFreq RegFile.model self w freq = rmwState w 0x0E v ∧
      agreeOutside 0b00111000 v (w.chip.regs 0x0E) ∧ v.testBit 3 = false ∧
      v.testBit 4 = freq.val.testBit 0 ∧
      v.testBit 5 = (freq.val.testBit 1 || (w.chip.regs 0x0E).testBit 5) := by
  have hbits : ∀ c, c < 256 → ∀ f, f < 4 →
      agreeOutside 0b00111000 ((c % 256 &&& not8 0b00011000 ||| f <<< 4) % 256) c ∧
      ((c % 256 &&& not8 0b00011000 ||| f <<< 4) % 256).testBit 3 = false ∧
      ((c % 256 &&& not8 0b00011000 ||| f <<< 4) % 256).testBit 4 = f.testBit 0 ∧
      ((c % 256 &&& not8 0b00011000 ||| f <<< 4) % 256).testBit 5 =
        (f.testBit 1 || c.testBit 5) := by decide
  have hf : freq.val < 4 := by cases freq <;> decide
  rw [SQWSetFreq_regFile, if_neg (by simp [hds])]
  exact ⟨_, rfl, hbits _ (hwf 0x0E) _ hf⟩

/-- C8 (failing input): on the DS3231 variant with control register 0x0E = 0x00,
`SQWSetFreq FREQ_4096` performs one read-modify-write of register 0x0E and writes
0x20: bit 5, which is not a frequency-select bit, differs from the byte read. -/
theorem SQWSetFreq_ds3231_sets_bit5 :
    zeroBus.chip.regs 0x0E = 0x00 ∧
    (SQWSetFreq RegFile.model ds3231 zeroBus RTC_SQW_FREQ.FREQ_4096).log = rmwLog 0x0E 0x20 ∧
    (SQWSetFreq RegFile.model ds3231 zeroBus RTC_SQW_FREQ.FREQ_4096).chip.regs 0x0E = 0x20 ∧
    ¬ agreeOutside 0b00011000
        ((SQWSetFreq RegFile.model ds3231 zeroBus RTC_SQW_FREQ.FREQ_4096).chip.regs 0x0E)
        (zeroBus.chip.regs 0x0E) := by
  decide

/-- C9 (failing input): on the DS3231 variant with control register 0x0E = 0x00, the
field in bits 4..3 of register 0x0E after `SQWSetFreq` is 0, 2, 0, 2 for FREQ_1,
FREQ_1024, FREQ_4096, FREQ_8192: it differs from the numeric value of `freq` for
the last three, and takes two values rather than four. -/
theorem SQWSetFreq_ds3231_field_values :
    field43 ((SQWSetFreq RegFile.model ds3231 zeroBus RTC_SQW_FREQ.FREQ_1).chip.regs 0x0E)
      = 0 ∧
    field43 ((SQWSetFreq RegFile.model ds3231 zeroBus RTC_SQW_FREQ.FREQ_1024).chip.regs 0x0E)
      = 2 ∧
    field43 ((SQWSetFreq RegFile.model ds3231 zeroBus RTC_SQW_FREQ.FREQ_4096).chip.regs 0x0E)
      = 0 ∧
    field43 ((SQWSetFreq RegFile.model ds3231 zeroBus RTC_SQW_FREQ.FREQ_8192).chip.regs 0x0E)
      = 2 := by
  decide

/-! ### Enable toggles -/

/-- C10 (counterexample): on the DS3231 variant with control register 0x0E = 0xFF,
`SQWEnable true` writes back 0xFB, which differs from 0xFF in bit 2, a bit other
than the enable bit 6. -/
theorem SQWEnable_ds3231_clears_bit2 :
    haltedBus.chip.regs 0x0E = 0xFF ∧
    (SQWEnable RegFile.model ds3231 haltedBus true).log = rmwLog 0x0E 0xFB ∧
    (SQWEnable RegFile.model ds3231 haltedBus true).chip.regs 0x0E = 0xFB ∧
    ¬ agreeOutside 0b01000000 ((SQWEnable RegFile.model ds3231 haltedBus true).chip.regs 0x0E)
        (haltedBus.chip.regs 0x0E) := by
  decide

/-- C10 (amended): for every control/status byte and both values of the flag, each
enable toggle is one read-modify-write of its register, and the byte written back
differs from the byte read in at most: bit 4 of register 0x07 for `SQWEnable` on the
DS1307 branch; bit 6 of register 0x0E for `SQWEnable false` on the DS3231 branch;
bits 6 and 2 of register 0x0E for `SQWEnable true` on the DS3231 branch; bit 3 of
register 0x0F for `Osc32kHzEnable` on the DS3231 variant. -/
theorem enable_toggles_isolated (self : WireRtcLib) (w : TwoWire RegFile) (enable : Bool)
    (hwf : w.chip.WF) :
    (self.m_is_ds1307 = true →
      ∃ v, SQWEnable RegFile.model self w enable = rmwState w 0x07 v ∧
        agreeOutside 0b00010000 v (w.chip.regs 0x07)) ∧
    (self.m_is_ds1307 = false →
      ∃ v, SQWEnable RegFile.model self w enable = rmwState w 0x0E v ∧
        agreeOutside (if enable then 0b01000100 else 0b01000000) v (w.chip.regs 0x0E)) ∧
    (self.m_is_ds3231 = true →
      ∃ v, Osc32kHzEnable RegFile.model self w enable = rmwState w 0x0F v ∧
        agreeOutside 0b00001000 v (w.chip.regs 0x0F)) := by
  have hbits : ∀ c, c < 256 →
      agreeOutside 0b00010000 ((c % 256 ||| 0b00010000) % 256) c ∧
      agreeOutside 0b00010000 ((c % 256 &&& not8 0b00010000) % 256) c ∧
      agreeOutside 0b01000100 (((c % 256 ||| 0b01000000) &&& not8 0b00000100) % 256) c ∧
      agreeOutside 0b01000000 ((c % 256 &&& not8 0b01000000) % 256) c ∧
      agreeOutside 0b00001000 ((c % 256 ||| 0b00001000) % 256) c ∧
      agreeOutside 0b00001000 ((c % 256 &&& not8 0b00001000) % 256) c := by
    decide
  refine ⟨fun hds => ?_, fun hds => ?_, fun hds => ?_⟩
  · obtain ⟨h1, h2, -⟩ := hbits _ (hwf 0x07)
    rw [SQWEnable_regFile, if_pos hds]
    refine ⟨_, rfl, ?_⟩
    cases enable
    · exact h2
    · exact h1
  · obtain ⟨-, -, h3, h4, -⟩ := hbits _ (hwf 0x0E)
    rw [SQWEnable_regFile, if_neg (by simp [hds])]
    refine ⟨_, rfl, ?_⟩
    cases enable
    · exact h4
    · exact h3
  · obtain ⟨-, -, -, -, h5, h6⟩ := hbits _ (hwf 0x0F)
    rw [Osc32kHzEnable_regFile, if_pos hds]
    refine ⟨_, rfl, ?_⟩
    cases enable
    · exact h6
    · exact h5

/-- Witness for C10 (amended): every control/status byte is 0xFF before each
toggle. -/
theorem enable_toggles_isolated_witness :
    (∃ v, SQWEnable RegFile.model ds1307 haltedBus false = rmwState haltedBus 0x07 v ∧
        agreeOutside 0b00010000 v 0xFF) ∧
    (∃ v, SQWEnable RegFile.model ds3231 haltedBus true = rmwState haltedBus 0x0E v ∧
        agreeOutside 0b01000100 v 0xFF) ∧
    (∃ v, SQWEnable RegFile.model ds3231 haltedBus false = rmwState haltedBus 0x0E v ∧
        agreeOutside 0b01000000 v 0xFF) ∧
    (∃ v, Osc32kHzEnable RegFile.model ds3231 haltedBus false = rmwState haltedBus 0x0F v ∧
        agreeOutside 0b00001000 v 0xFF) :=
  ⟨(enable_toggles_isolated ds1307 haltedBus false haltedBus_WF).1 rfl,
   (enable_toggles_isolated ds3231 haltedBus true haltedBus_WF).2.1 rfl,
   (enable_toggles_isolated ds3231 haltedBus false haltedBus_WF).2.1 rfl,
   (enable_toggles_isolated ds3231 haltedBus false haltedBus_WF).2.2 rfl⟩

/-! ### The two read paths -/

/-- The hour and minute of `getTime_s` and `getTime` agree on every register-file
chip, and so do the seconds when bit 7 of register 0x00 is clear. -/
theorem getTime_s_agrees_running (self : WireRtcLib) (w : TwoWire RegFile) :
    ((getTime_s RegFile.model w).1.1 : Int) = (snapshot RegFile.model self w).hour ∧
    ((getTime_s RegFile.model w).1.2.1 : Int) = (snapshot RegFile.model self w).min ∧
    ((w.chip.regs 0 % 256).testBit 7 = false →
      ((getTime_s RegFile.model w).1.2.2 : Int) = (snapshot RegFile.model self w).sec) := by
  obtain ⟨g0, g1, g2, -⟩ := getTime_fields self w
  have hs := (getTime_s_regFile w).1
  rw [hs, g0, g1, g2]
  refine ⟨rfl, rfl, fun h7 => ?_⟩
  have hlt : w.chip.regs 0 % 256 < 256 := Nat.mod_lt _ (by decide)
  have hmask : ∀ c, c < 256 → c.testBit 7 = false → c &&& 127 = c := by decide
  rw [hmask _ hlt h7]

/-- C12 (failing input): with register 0x00 = 0xD0 (clock halted at 50 seconds),
`getTime` returns 50 seconds while `getTime_s` decodes the byte with its halt bit
and returns 130; hour and minute agree. -/
theorem getTime_s_keeps_halt_bit :
    halted50Bus.chip.regs 0 = 0xD0 ∧
    (snapshot RegFile.model (new tmExample) halted50Bus).sec = 50 ∧
    (getTime_s RegFile.model halted50Bus).1 = (12, 0, 130) ∧
    (snapshot RegFile.model (new tmExample) halted50Bus).hour = 12 ∧
    (snapshot RegFile.model (new tmExample) halted50Bus).min = 0 := by
  decide

/-! ### Variant flags -/

/-- C17 (failing input): the constructor followed by `setDS3231` and then `begin`
against a plain-storage chip leaves `isDS1307` and `isDS3231` both true. -/
theorem begin_after_setDS3231_both_flags :
    (begin RegFile.model (setDS3231 (new tmExample)) haltedBus).1.isDS1307 = true ∧
    (begin RegFile.model (setDS3231 (new tmExample)) haltedBus).1.isDS3231 = true := by
  decide

/-- A freshly constructed driver holds exactly one variant after one `begin`,
whatever the chip does. -/
theorem begin_fresh_exclusive {σ : Type} (M : ChipModel σ) (m_tm : tm) (w : TwoWire σ) :
    (begin M (new m_tm) w).1.isDS1307 = !(begin M (new m_tm) w).1.isDS3231 := by
  simp only [begin, new, isDS1307, isDS3231]
  split_ifs <;> rfl

/-! ### Temperature -/

/-- Every byte in the receive buffer after `requestFrom` is below 256. -/
theorem requestFrom_bytes {σ : Type} (M : ChipModel σ) (w : TwoWire σ) (address quantity : Nat) :
    ∀ b ∈ (requestFrom M w address quantity).rxBuffer, b < 256 := by
  intro b hb
  simp only [requestFrom, List.mem_map] at hb
  obtain ⟨x, -, rfl⟩ := hb
  exact Nat.mod_lt _ (by decide)

/-- On a register-file chip the two bytes `getTemp` receives are registers 0x11 and
0x12. -/
theorem tempReply_regFile (w : TwoWire RegFile) :
    tempReply RegFile.model w = [w.chip.regs 0x11 % 256, w.chip.regs 0x12 % 256] := by
  simp [tempReply, beginTransmission, send, endTransmission, requestFrom, BUFFER_LENGTH,
    RegFile.model, RegFile.writeTo, RegFile.readFrom, RegFile.fetch, RTC_ADDR]

/-- C14: on the DS1307 variant `getTemp` returns (0, 0) and leaves the bus untouched
(no transaction is issued); otherwise, when the two bytes msb and lsb arrive from
the read at register 0x11, `*i` is msb reinterpreted as a two's-complement signed
8-bit integer (the integer in [-128,127] congruent to msb modulo 256) and
`*f = (lsb >> 6) * 25`, which is one of 0, 25, 50, 75 and is 25 times the value of
the top two bits of lsb. -/
theorem getTemp_result {σ : Type} (M : ChipModel σ) (self : WireRtcLib) (w : TwoWire σ)
    (msb lsb : Nat) :
    (self.m_is_ds1307 = true → getTemp M self w = ((0, 0), w)) ∧
    (self.m_is_ds1307 = false → tempReply M w = [msb, lsb] →
      -128 ≤ (getTemp M self w).1.1 ∧ (getTemp M self w).1.1 ≤ 127 ∧
      ((getTemp M self w).1.1 - msb) % 256 = 0 ∧
      (getTemp M self w).1.2 = (lsb >>> 6) * 25 ∧
      ((getTemp M self w).1.2 = 0 ∨ (getTemp M self w).1.2 = 25 ∨
        (getTemp M self w).1.2 = 50 ∨ (getTemp M self w).1.2 = 75) ∧
      (getTemp M self w).1.2 = 25 * (lsb / 64)) := by
  refine ⟨fun hds => ?_, fun hds hrx => ?_⟩
  · simp [getTemp, hds]
  · have hbytes := requestFrom_bytes M
      (endTransmission M (send (beginTransmission w RTC_ADDR) 0x11)) RTC_ADDR 2
    unfold tempReply at hrx
    rw [hrx] at hbytes
    have hm : msb < 256 := hbytes msb (by simp)
    have hl : lsb < 256 := hbytes lsb (by simp)
    have hf : ∀ l, l < 256 → ((l >>> 6) * 25) % 256 = (l >>> 6) * 25 ∧
        ((l >>> 6) * 25 = 0 ∨ (l >>> 6) * 25 = 25 ∨ (l >>> 6) * 25 = 50 ∨ (l >>> 6) * 25 = 75) ∧
        (l >>> 6) * 25 = 25 * (l / 64) := by decide
    obtain ⟨f1, f2, f3⟩ := hf lsb hl
    have hval : (getTemp M self w).1 =
        (if msb < 128 then (msb : Int) else (msb : Int) - 256, (lsb >>> 6) * 25) := by
      simp [getTemp, hds, available, receive, hrx, Nat.mod_eq_of_lt hm, f1]
    rw [hval]
    dsimp only
    refine ⟨?_, ?_, ?_, rfl, f2, f3⟩ <;> split_ifs <;> omega

/-- Witness for C14: a DS1307 driver gets (0, 0) and the bus is untouched; a DS3231
driver reading 0xE7, 0xC0 gets -25 and 75. -/
theorem getTemp_result_witness :
    getTemp RegFile.model ds1307 sensorBus = ((0, 0), sensorBus) ∧
    tempReply RegFile.model sensorBus = [0xE7, 0xC0] ∧
    (getTemp RegFile.model ds3231 sensorBus).1 = (-25, 75) ∧
    (-128 ≤ (getTemp RegFile.model ds3231 sensorBus).1.1 ∧
      (getTemp RegFile.model ds3231 sensorBus).1.1 ≤ 127 ∧
      ((getTemp RegFile.model ds3231 sensorBus).1.1 - (0xE7 : Nat)) % 256 = 0 ∧
      (getTemp RegFile.model ds3231 sensorBus).1.2 = (0xC0 >>> 6) * 25 ∧
      ((getTemp RegFile.model ds3231 sensorBus).1.2 = 0 ∨
        (getTemp RegFile.model ds3231 sensorBus).1.2 = 25 ∨
        (getTemp RegFile.model ds3231 sensorBus).1.2 = 50 ∨
        (getTemp RegFile.model ds3231 sensorBus).1.2 = 75) ∧
      (getTemp RegFile.model ds3231 sensorBus).1.2 = 25 * (0xC0 / 64)) :=
  ⟨(getTemp_result RegFile.model ds1307 sensorBus 0 0).1 rfl, by decide, by decide,
    (getTemp_result RegFile.model ds3231 sensorBus 0xE7 0xC0).2 rfl (by decide)⟩

/-! ### Clock run/halt -/

theorem runClock_regFile (self : WireRtcLib) (w : TwoWire RegFile) (run : Bool) :
    runClock RegFile.model self w run =
      if self.m_is_ds3231 then w
      else
        { rxBuffer := [], txAddress := 0x68, txBuffer := [], transmitting := false,
          chip :=
            { regs := fun a =>
                if a = 0 ∧ w.chip.ro a = false then
                  (if run then w.chip.regs 0 % 256 &&& 127 else w.chip.regs 0 % 256 ||| 128) % 256
                else w.chip.regs a
              ptr := 1
              ro := w.chip.ro },
          log := w.log ++ [BusOp.write 0x68 [0], BusOp.read 0x68 1] ++
            [BusOp.write 0x68
              [0, (if run then w.chip.regs 0 % 256 &&& 127 else w.chip.regs 0 % 256 ||| 128) % 256]] } := by
  have hmask : not8 (_BV CH_BIT) = 127 := rfl
  have hbv : _BV CH_BIT = 128 := rfl
  have hmask128 : not8 128 = 127 := rfl
  unfold runClock
  by_cases h : self.m_is_ds3231 = true
  · simp [h]
  · cases run <;> simp [h, read_byte_regFile, write_byte_regFile, hmask, hbv, hmask128]

/-- C15: on a plain-storage chip, when the variant is not DS3231, `runClock run`
changes only bit 7 of register 0x00, clearing it when `run` is true and setting it
when `run` is false (the low seven bits of register 0x00 and every other register
are unchanged), so that `isClockRunning` afterwards returns `run`; when the variant
is DS3231, `runClock` leaves the bus untouched (nothing is written) and
`isClockRunning` returns true. -/
theorem runClock_bit7 (self : WireRtcLib) (w : TwoWire RegFile) (run : Bool)
    (hplain : ∀ a, w.chip.ro a = false) (hwf : w.chip.WF) :
    (self.m_is_ds3231 = false →
      (∀ a, a ≠ 0 → (runClock RegFile.model self w run).chip.regs a = w.chip.regs a) ∧
      (runClock RegFile.model self w run).chip.regs 0 % 128 = w.chip.regs 0 % 128 ∧
      ((runClock RegFile.model self w run).chip.regs 0).testBit 7 = !run ∧
      (isClockRunning RegFile.model self (runClock RegFile.model self w run)).1 = run) ∧
    (self.m_is_ds3231 = true →
      runClock RegFile.model self w run = w ∧
      (isClockRunning RegFile.model self (runClock RegFile.model self w run)).1 = true) := by
  have hbits : ∀ c, c < 256 →
      ((c % 256 &&& 127) % 256 % 128 = c % 128 ∧ ((c % 256 &&& 127) % 256).testBit 7 = false ∧
        (c % 256 &&& 127) % 256 &&& _BV CH_BIT = 0) ∧
      ((c % 256 ||| 128) % 256 % 128 = c % 128 ∧ ((c % 256 ||| 128) % 256).testBit 7 = true ∧
        (c % 256 ||| 128) % 256 &&& _BV CH_BIT ≠ 0) := by decide
  obtain ⟨⟨r1, r2, r3⟩, ⟨h1, h2, h3⟩⟩ := hbits _ (hwf 0)
  refine ⟨fun hds => ?_, fun hds => ?_⟩
  · rw [isClockRunning_regFile, runClock_regFile, hds]
    simp only [Bool.false_eq_true, if_false, hplain, and_true, if_true, Bool.false_or]
    refine ⟨fun a ha => by simp [ha], ?_⟩
    cases run
    · simp only [Bool.false_eq_true, if_false]
      exact ⟨h1, h2, by simp [h3]⟩
    · simp only [if_true]
      exact ⟨r1, r2, by simp [r3]⟩
  · rw [isClockRunning_regFile, runClock_regFile, hds]
    simp

/-- Witness for C15: a driver that is not DS3231 starts a halted clock, and a DS3231
driver leaves the bus untouched. -/
theorem runClock_bit7_witness :
    ((∀ a, a ≠ 0 →
        (runClock RegFile.model ds1307 haltedBus true).chip.regs a = haltedBus.chip.regs a) ∧
      (runClock RegFile.model ds1307 haltedBus true).chip.regs 0 % 128 =
        haltedBus.chip.regs 0 % 128 ∧
      ((runClock RegFile.model ds1307 haltedBus true).chip.regs 0).testBit 7 = !true ∧
      (isClockRunning RegFile.model ds1307
        (runClock RegFile.model ds1307 haltedBus true)).1 = true) ∧
    (runClock RegFile.model ds3231 haltedBus false = haltedBus ∧
      (isClockRunning RegFile.model ds3231
        (runClock RegFile.model ds3231 haltedBus false)).1 = true) :=
  ⟨(runClock_bit7 ds1307 haltedBus true (fun _ => rfl) haltedBus_WF).1 rfl,
   (runClock_bit7 ds3231 haltedBus false (fun _ => rfl) haltedBus_WF).2 rfl⟩

/-! ### General-purpose storage -/

theorem getSramLoop_regFile (n : Nat) : ∀ (i : Nat) (w : TwoWire RegFile),
    (getSramLoop RegFile.model n i w).1 =
      (List.range n).map (fun k => w.chip.regs ((8 + (i + k) % 256) % 256) % 256) := by
  induction n with
  | zero => intro i w; rfl
  | succ n ih =>
    intro i w
    simp only [getSramLoop, ih, getSramByte_regFile, List.range_succ_eq_map, List.map_cons,
      List.map_map, Nat.add_zero]
    congr 1
    apply List.map_congr_left
    intro k _
    simp only [Function.comp, Nat.succ_eq_add_one]
    rw [show i + 1 + k = i + (k + 1) by omega]

/-- On plain storage the loop of `setSram` stores `data[i .. i+n)` in registers
`8+i .. 8+i+n` and leaves the others as they were. -/
theorem setSramLoop_regFile (data : List Nat) (n : Nat) : ∀ (i : Nat) (w : TwoWire RegFile),
    (∀ a, w.chip.ro a = false) → i + n ≤ 248 →
    (∀ a, (setSramLoop RegFile.model data n i w).chip.ro a = false) ∧
    ∀ a, (setSramLoop RegFile.model data n i w).chip.regs a =
      if 8 + i ≤ a ∧ a < 8 + i + n then data.getD (a - 8) 0 % 256 else w.chip.regs a := by
  induction n with
  | zero =>
    intro i w hplain _
    refine ⟨hplain, fun a => ?_⟩
    rw [if_neg (by omega)]
    rfl
  | succ n ih =>
    intro i w hplain hin
    have hi : i % 256 = i := Nat.mod_eq_of_lt (by omega)
    have h8 : (8 + i) % 256 = 8 + i := Nat.mod_eq_of_lt (by omega)
    obtain ⟨hro, hregs⟩ := ih (i + 1) (setSramByte RegFile.model w (data.getD i 0) (i % 256))
      (fun a => by rw [setSramByte_regFile]; exact hplain a) (by omega)
    refine ⟨hro, fun a => ?_⟩
    simp only [setSramLoop]
    rw [hregs a, setSramByte_regFile]
    simp only [hi, h8, hplain, and_true]
    by_cases h1 : 8 + (i + 1) ≤ a ∧ a < 8 + (i + 1) + n
    · rw [if_pos h1, if_pos (by omega)]
    · rw [if_neg h1]
      by_cases h2 : a = 8 + i
      · rw [if_pos h2, if_pos (by omega), h2]
        simp
      · rw [if_neg h2, if_neg (by omega)]

/-- The 56 bytes `getSram` returns from a register-file chip are registers 0x08 to
0x3F. -/
theorem getSram_regFile (w : TwoWire RegFile) :
    (getSram RegFile.model w).1 = (List.range 56).map (fun k => w.chip.regs (8 + k) % 256) := by
  unfold getSram
  rw [getSramLoop_regFile]
  apply List.map_congr_left
  intro k hk
  have hk56 : k < 56 := List.mem_range.mp hk
  rw [Nat.zero_add, Nat.mod_eq_of_lt (by omega : k < 256),
    Nat.mod_eq_of_lt (by omega : 8 + k < 256)]

theorem getSram_getD (w : TwoWire RegFile) (k : Nat) (hk : k < 56) :
    (getSram RegFile.model w).1.getD k 0 = w.chip.regs (8 + k) % 256 := by
  rw [getSram_regFile]
  simp [List.getD, List.getElem?_range hk]

theorem range_map_getD (data : List Nat) :
    (List.range data.length).map (fun k => data.getD k 0) = data := by
  apply List.ext_getElem
  · simp
  · intro n h1 h2
    simp [List.getD, List.getElem?_eq_getElem h2]

/-- C11: with the chip modelled as plain storage, for every 56-byte array `data`,
`setSram data` followed by `getSram` yields `data` again (`out[i] = data[i]` for
every i in 0..55) and `getSramByte i` returns `data[i]` for every i in 0..55;
conversely after `setSramByte b i` with i < 56, `getSram` returns b at index i and
the previous contents at every other index. -/
theorem sram_roundtrip (w : TwoWire RegFile) (data : List Nat)
    (hplain : ∀ a, w.chip.ro a = false) (hlen : data.length = 56)
    (hdata : ∀ x ∈ data, x < 256) :
    (getSram RegFile.model (setSram RegFile.model w data)).1 = data ∧
    (∀ i, i < 56 → (getSramByte RegFile.model (setSram RegFile.model w data) i).1 =
      data.getD i 0) ∧
    (∀ b i, b < 256 → i < 56 → ∀ j, j < 56 →
      (getSram RegFile.model (setSramByte RegFile.model w b i)).1.getD j 0 =
        if j = i then b else (getSram RegFile.model w).1.getD j 0) := by
  obtain ⟨-, hregs⟩ := setSramLoop_regFile data 56 0 w hplain (by omega)
  have hbyte : ∀ k, k < 56 → data.getD k 0 % 256 = data.getD k 0 := by
    intro k hk
    apply Nat.mod_eq_of_lt
    rw [List.getD_eq_getElem _ _ (by omega : k < data.length)]
    exact hdata _ (List.getElem_mem _)
  have hset : ∀ k, k < 56 →
      (setSram RegFile.model w data).chip.regs (8 + k) % 256 = data.getD k 0 := by
    intro k hk
    unfold setSram
    rw [hregs (8 + k), if_pos (by omega), Nat.add_sub_cancel_left, Nat.mod_mod, hbyte k hk]
  refine ⟨?_, fun i hi => ?_, fun b i hb hi j hj => ?_⟩
  · rw [getSram_regFile]
    conv_rhs => rw [← range_map_getD data]
    rw [hlen]
    apply List.map_congr_left
    intro k hk
    exact hset k (List.mem_range.mp hk)
  · rw [getSramByte_regFile, Nat.mod_eq_of_lt (by omega : 8 + i < 256)]
    exact hset i hi
  · rw [getSram_getD _ j hj, getSram_getD _ j hj, setSramByte_regFile]
    simp only [hplain, and_true, Nat.mod_eq_of_lt (by omega : 8 + i < 256)]
    by_cases h : j = i
    · rw [if_pos h, if_pos (by omega), Nat.mod_mod, Nat.mod_eq_of_lt hb]
    · rw [if_neg h, if_neg (by omega)]

/-- Witness for C11: the pattern 100..155 written over a chip full of 0xFF, and the
byte 0x5A stored at offset 3. -/
theorem sram_roundtrip_witness :
    (getSram RegFile.model (setSram RegFile.model haltedBus sramData)).1 = sramData ∧
    (getSramByte RegFile.model (setSram RegFile.model haltedBus sramData) 55).1 =
      sramData.getD 55 0 ∧
    ((getSram RegFile.model (setSramByte RegFile.model haltedBus 0x5A 3)).1.getD 3 0 =
      if 3 = 3 then 0x5A else (getSram RegFile.model haltedBus).1.getD 3 0) ∧
    ((getSram RegFile.model (setSramByte RegFile.model haltedBus 0x5A 3)).1.getD 4 0 =
      if 4 = 3 then 0x5A else (getSram RegFile.model haltedBus).1.getD 4 0) :=
  ⟨(sram_roundtrip haltedBus sramData (fun _ => rfl) rfl (by decide)).1,
   (sram_roundtrip haltedBus sramData (fun _ => rfl) rfl (by decide)).2.1 55 (by decide),
   (sram_roundtrip haltedBus sramData (fun _ => rfl) rfl (by decide)).2.2 0x5A 3
      (by decide) (by decide) 3 (by decide),
   (sram_roundtrip haltedBus sramData (fun _ => rfl) rfl (by decide)).2.2 0x5A 3
      (by decide) (by decide) 4 (by decide)⟩

/-! ### Storage calls, the variant and the region -/

theorem setSramByte_log {σ : Type} (M : ChipModel σ) (w : TwoWire σ) (b offset : Nat) :
    (setSramByte M w b offset).log =
      w.log ++ [BusOp.write 0x68 [sramAddr offset, b % 256]] :=
  rfl

theorem getSramByte_log {σ : Type} (M : ChipModel σ) (w : TwoWire σ) (offset : Nat) :
    (getSramByte M w offset).2.log =
      w.log ++ [BusOp.write 0x68 [sramAddr offset], BusOp.read 0x68 1] := by
  simp only [getSramByte, receive]
  split <;> simp [requestFrom, endTransmission, send, beginTransmission, BUFFER_LENGTH, RTC_ADDR,
    sramAddr]

theorem setSramLoop_log {σ : Type} (M : ChipModel σ) (data : List Nat) (n : Nat) :
    ∀ (i : Nat) (w : TwoWire σ),
    (setSramLoop M data n i w).log =
      w.log ++ (List.range n).map
        (fun k => BusOp.write 0x68 [sramAddr ((i + k) % 256), data.getD (i + k) 0 % 256]) := by
  induction n with
  | zero => intro i w; simp [setSramLoop]
  | succ n ih =>
    intro i w
    simp only [setSramLoop, ih, setSramByte_log, List.range_succ_eq_map, List.map_cons,
      List.map_map, Nat.add_zero, List.append_assoc, List.singleton_append]
    congr 2
    apply List.map_congr_left
    intro k _
    simp only [Function.comp, Nat.succ_eq_add_one]
    rw [show i + 1 + k = i + (k + 1) by omega]

/-- The bus writes of `setSram`: byte i of `data` goes to register 0x08 + i. -/
theorem setSram_log {σ : Type} (M : ChipModel σ) (w : TwoWire σ) (data : List Nat) :
    (setSram M w data).log =
      w.log ++ (List.range 56).map
        (fun i => BusOp.write 0x68 [0x08 + i, data.getD i 0 % 256]) := by
  unfold setSram
  rw [setSramLoop_log]
  rfl

/-- C13 (failing input): with the driver's variant DS3231 (`isDS3231` true, `isDS1307`
false), `setSramByte 0xAB 0` issues the bus write of 0xAB to register 0x08, whose
content changes from 0 to 0xAB, and `getSramByte 0` then returns 0xAB, not 0;
`setSram` with the pattern 100..155 overwrites the control and status registers
0x0E and 0x0F with 106 and 107. The storage calls take no driver state: they read
no data member, so the variant cannot stop them. -/
theorem setSramByte_on_ds3231_writes :
    ds3231.isDS3231 = true ∧ ds3231.isDS1307 = false ∧
    sensorBus.chip.regs 0x08 = 0 ∧
    (setSramByte RegFile.model sensorBus 0xAB 0).log = [BusOp.write 0x68 [0x08, 0xAB]] ∧
    (setSramByte RegFile.model sensorBus 0xAB 0).chip.regs 0x08 = 0xAB ∧
    (getSramByte RegFile.model (setSramByte RegFile.model sensorBus 0xAB 0) 0).1 = 0xAB ∧
    sensorBus.chip.regs 0x0E = 0 ∧ sensorBus.chip.regs 0x0F = 0 ∧
    (setSram RegFile.model sensorBus sramData).chip.regs 0x0E = 106 ∧
    (setSram RegFile.model sensorBus sramData).chip.regs 0x0F = 107 := by
  decide

/-- C16 (counterexample): for the 8-bit offset 248 the register address is
(0x08 + 248) mod 256 = 0x00, outside 0x08..0x3F, and `setSramByte 0x80 248`
overwrites the seconds register 0x00 (setting its clock-halt bit). -/
theorem setSramByte_offset_248_hits_seconds :
    sramAddr 248 = 0x00 ∧ ¬ (0x08 ≤ sramAddr 248 ∧ sramAddr 248 ≤ 0x3F) ∧
    zeroBus.chip.regs 0x00 = 0 ∧
    (setSramByte RegFile.model zeroBus 0x80 248).log = [BusOp.write 0x68 [0x00, 0x80]] ∧
    (setSramByte RegFile.model zeroBus 0x80 248).chip.regs 0x00 = 0x80 := by
  decide

/-- C16 (amended): for every offset below 56 and every byte b, the register address
that `setSramByte b offset` writes and that `getSramByte offset` reads, namely
(0x08 + offset) truncated to 8 bits, lies in 0x08..0x3F, so a storage write leaves
the time registers 0x00-0x06 and the control register 0x07 of a register-file chip
unchanged. -/
theorem sram_offset_in_region {σ : Type} (M : ChipModel σ) (w : TwoWire σ)
    (wr : TwoWire RegFile) (b offset : Nat) (hoff : offset < 56) :
    (0x08 ≤ sramAddr offset ∧ sramAddr offset ≤ 0x3F) ∧
    (setSramByte M w b offset).log =
      w.log ++ [BusOp.write 0x68 [sramAddr offset, b % 256]] ∧
    (getSramByte M w offset).2.log =
      w.log ++ [BusOp.write 0x68 [sramAddr offset], BusOp.read 0x68 1] ∧
    (∀ a, a ≤ 0x07 → (setSramByte RegFile.model wr b offset).chip.regs a = wr.chip.regs a) := by
  have haddr : sramAddr offset = 8 + offset := by
    unfold sramAddr DS1307_SRAM_ADDR
    exact Nat.mod_eq_of_lt (by omega)
  refine ⟨by rw [haddr]; omega, setSramByte_log M w b offset, getSramByte_log M w offset,
    fun a ha => ?_⟩
  rw [setSramByte_regFile]
  have hne : ¬ (a = (8 + offset) % 256 ∧ wr.chip.ro a = false) := by
    rw [Nat.mod_eq_of_lt (by omega : 8 + offset < 256)]
    omega
  simp only [hne, if_false]

/-- Witness for C16 (amended): the last offset, 55, addresses register 0x3F. -/
theorem sram_offset_in_region_witness :
    (0x08 ≤ sramAddr 55 ∧ sramAddr 55 ≤ 0x3F) ∧
    (setSramByte RegFile.model haltedBus 0x5A 55).log =
      haltedBus.log ++ [BusOp.write 0x68 [sramAddr 55, 0x5A % 256]] ∧
    (getSramByte RegFile.model haltedBus 55).2.log =
      haltedBus.log ++ [BusOp.write 0x68 [sramAddr 55], BusOp.read 0x68 1] ∧
    (∀ a, a ≤ 0x07 →
      (setSramByte RegFile.model haltedBus 0x5A 55).chip.regs a = haltedBus.chip.regs a) :=
  sram_offset_in_region RegFile.model haltedBus haltedBus 0x5A 55 (by decide)

end WireRtcLib
